import Mathlib

/-!
Verification of `src/mcp_server.py` (whoogle-search MCP server).

The Python source is shallowly embedded: pure helper functions become Lean
functions on `String` / `List Char`; the HTTP side effects of `web_search`,
`_perform_search` and `get_website` are modelled by an `Env` of oracles
(one pure function per external call site), and every function that issues
requests additionally returns the list of requests it made, so that
"zero network calls" style properties are statable.  Exceptions
(`ValueError`, `KeyError`, propagated HTTP errors) become an `Except PyErr`
result.  Library calls (`BeautifulSoup.get_text`, `unicodedata`) are
modelled by explicit parameters or by concrete partial models documented at
their definition sites.
-/


/-- Model of Python's whitespace predicate (`str.isspace` on a single
character), which is the set `str.split()`, `str.strip()` and the regex
`\s` split/collapse on: ASCII whitespace, the C1 separators, NEL, NBSP and
the Unicode space separators. -/
def pyIsSpace (c : Char) : Bool :=
  let n := c.toNat
  (9 ≤ n && n ≤ 13) || (28 ≤ n && n ≤ 32) || n == 133 || n == 160 ||
  n == 5760 || (8192 ≤ n && n ≤ 8202) || n == 8232 || n == 8233 ||
  n == 8239 || n == 8287 || n == 12288

/-- Accumulator-based worker for Python's `str.split()` (split on runs of
whitespace, discarding empty pieces).  `acc` holds the reversed characters
of the token currently being read. -/
def splitAux : List Char → List Char → List (List Char)
  | [], acc => if acc = [] then [] else [acc.reverse]
  | c :: cs, acc =>
    if pyIsSpace c then
      if acc = [] then splitAux cs [] else acc.reverse :: splitAux cs []
    else
      splitAux cs (c :: acc)

/-- Model of Python's `text.split()` with no separator argument. -/
def pySplit (s : List Char) : List (List Char) := splitAux s []

/-- Model of Python's `" ".join(tokens)`. -/
def joinWords : List (List Char) → List Char
  | [] => []
  | [w] => w
  | w :: ws => w ++ ' ' :: joinWords ws

/-- Model of `HelpFunctions.truncate_to_n_words` (mcp_server.py lines
84-87): split on whitespace, keep the first `token_limit` tokens, rejoin
with single spaces. -/
def truncate_to_n_words (text : String) (token_limit : Nat) : String :=
  (joinWords ((pySplit text.toList).take token_limit)).asString

/-- Model of `HelpFunctions.generate_excerpt` (mcp_server.py lines 42-43):
`content[:max_length] + "..." if len(content) > max_length else content`. -/
def generate_excerpt (content : String) (max_length : Nat := 200) : String :=
  if max_length < content.length then content.take max_length ++ "..." else content

/-- Accumulator-based worker for `re.sub(r"\s+", " ", s)`: replace every
maximal run of whitespace by a single space.  `prevWs` records whether the
previous character was part of a whitespace run already replaced. -/
def collapseAux : List Char → Bool → List Char
  | [], _ => []
  | c :: cs, prevWs =>
    if pyIsSpace c then
      if prevWs then collapseAux cs true else ' ' :: collapseAux cs true
    else c :: collapseAux cs false

/-- Model of `re.sub(r"\s+", " ", s)` on the character list of `s`. -/
def collapseWs (s : List Char) : List Char := collapseAux s false

/-- Remove the trailing run of whitespace characters. -/
def dropTrailingWs : List Char → List Char
  | [] => []
  | c :: cs =>
    match dropTrailingWs cs with
    | [] => if pyIsSpace c then [] else [c]
    | d :: rest => c :: d :: rest

/-- Model of Python's `str.strip()` with no argument. -/
def pyStrip (s : List Char) : List Char := dropTrailingWs (s.dropWhile pyIsSpace)

/-- String-level wrapper for `str.strip()`. -/
def pyStripS (s : String) : String := (pyStrip s.toList).asString

/-- Partial model of `unicodedata.category(c).startswith("So")` — only the
category "So" itself starts with "So", so this tests membership in the
"Symbol, other" category.  The model is exact on the character repertoire
used in this development: the characters U+2600–U+2604 (BLACK SUN WITH
RAYS … COMET) are in category So, and every other character appearing in
these files is not. -/
def isSo (c : Char) : Bool := 0x2600 ≤ c.toNat && c.toNat ≤ 0x2604

/-- Model of `HelpFunctions.remove_emojis` (mcp_server.py lines 54-55):
keep exactly the characters whose Unicode category does not start with
"So". -/
def remove_emojis (text : String) : String :=
  (text.toList.filter (fun c => !(isSo c))).asString

/-- Model of `HelpFunctions.format_text` (mcp_server.py lines 45-52),
parametrised by the two library calls it makes: `getText` models
`BeautifulSoup(original_text, "html.parser").get_text(separator=" ", strip=True)`
and `nfkc` models `unicodedata.normalize("NFKC", ·)`.  The remaining steps
are translated directly from the source: collapse every whitespace run to
a single space (`re.sub(r"\s+", " ", ·)`), strip, then `remove_emojis`. -/
def format_text (getText nfkc : String → String) (original_text : String) : String :=
  remove_emojis ((pyStrip (collapseWs (nfkc (getText original_text)).toList)).asString)

/-- Model of the constant `PAGE_CONTENT_WORDS_LIMIT` (mcp_server.py line 26). -/
def PAGE_CONTENT_WORDS_LIMIT : Nat := 1000

/-- Model of the constant `MAX_LINKS_IN_RESPONSE` (mcp_server.py line 27). -/
def MAX_LINKS_IN_RESPONSE : Nat := 3

/-- Model of a Python `dict` with string keys and string values as an
insertion-ordered association list (the code never creates duplicate
keys). -/
abbrev Dict := List (String × String)

/-- Model of Python dict assignment `d[k] = v`: replace the value in place
when the key is present, append the pair otherwise. -/
def dictSet (d : Dict) (k v : String) : Dict :=
  if (d.lookup k).isSome then
    d.map (fun kv => if kv.1 = k then (k, v) else kv)
  else d ++ [(k, v)]

/-- Removal of every pair with key `k` (the effect of a successful
`del d[k]`). -/
def dictErase (d : Dict) (k : String) : Dict := d.filter (fun kv => kv.1 != k)

/-- Model of Python `del d[k]`: `none` models the `KeyError` raised when
the key is absent. -/
def dictDel (d : Dict) (k : String) : Option Dict :=
  if (d.lookup k).isSome then some (dictErase d k) else none

/-- The Python exceptions that can escape the embedded functions.
`attributeError` models the `AttributeError` raised on mcp_server.py line
124 when `page_title` is `None` and `.strip()` is called on it. -/
inductive PyErr where
  | valueError (msg : String)
  | keyError (key : String)
  | httpError (msg : String)
  | attributeError (msg : String)
deriving DecidableEq

/-- Outcome of `requests.get(url)` followed by `raise_for_status()`:
either the response body text, or the message of the raised
`requests.exceptions.RequestException`. -/
inductive FetchResult where
  | success (html : String)
  | failure (err : String)
deriving DecidableEq

/-- One outbound HTTP request, recorded so that "zero network calls"
properties are statable: `searchReq q` is the `_perform_search` GET to
`/search?q=...&format=json`, and `fetchReq url` is the `requests.get(url)`
issued by `get_website`. -/
inductive Request where
  | searchReq (query : String)
  | fetchReq (url : String)
deriving DecidableEq

/-- Model of the JSON payload returned by the search backend: the
`results` list of dicts plus the remaining top-level fields, which the
code passes through unchanged. -/
structure Payload where
  results : List Dict
  extra : List (String × String)
deriving DecidableEq

/-- Oracles for the external calls the code makes: `fetch` models
`requests.get` + `raise_for_status` on a page URL, `search` models
`_perform_search` (its `Except.error` is the propagated httpx error on a
non-2xx status or transport failure), `titleOf` models the pair
`soup.title` / `soup.title.string` — the outer `Option` is whether a title
tag exists, the inner one is its `.string`, which BeautifulSoup makes
`None` when the tag does not have exactly one string child (empty or
multi-child `<title>`) — `getText` models
`soup.get_text(separator=" ", strip=True)` and `nfkc` models
`unicodedata.normalize("NFKC", ·)`. -/
structure Env where
  fetch : String → FetchResult
  search : String → Except String Payload
  titleOf : String → Option (Option String)
  getText : String → String
  nfkc : String → String

/-- The single JSON object built by `get_website` (mcp_server.py lines
106-153), or the exception it raises.  On a successful fetch, line 123
computes `page_title = soup.title.string if soup.title else "No title
found"`; when the title tag exists but its `.string` is `None` (empty or
multi-child `<title>`), line 124 calls `.strip()` on `None` and raises an
`AttributeError` that the `except requests.exceptions.RequestException`
clause does not catch.  Otherwise the dict with keys title, url, content
and excerpt is built exactly as on lines 136-141.  On a fetch failure,
the dict appended on lines 146-151 is returned. -/
def get_website_entry (env : Env) (url : String) : Except PyErr Dict :=
  match env.fetch url with
  | FetchResult.success html =>
    match (match env.titleOf html with
           | some s => s
           | none => some "No title found") with
    | none => Except.error (PyErr.attributeError "NoneType object has no attribute strip")
    | some page_title =>
      Except.ok
        [("title", remove_emojis (env.nfkc (pyStripS page_title))),
         ("url", url),
         ("content", truncate_to_n_words (format_text env.getText env.nfkc (env.getText html))
            PAGE_CONTENT_WORDS_LIMIT),
         ("excerpt", generate_excerpt (format_text env.getText env.nfkc (env.getText html)))]
  | FetchResult.failure e =>
    Except.ok [("url", url), ("content", "Failed to retrieve the page. Error: " ++ e)]

/-- Model of the `get_website` tool (mcp_server.py lines 106-153): the
returned value is `json.dumps` of the one-element list `results_json`
(we keep the list itself), or the uncaught `AttributeError` from the
title extraction; paired with the trace of HTTP requests issued. -/
def get_website (env : Env) (url : String) : Except PyErr (List Dict) × List Request :=
  match get_website_entry env url with
  | Except.error e => (Except.error e, [Request.fetchReq url])
  | Except.ok entry => (Except.ok [entry], [Request.fetchReq url])

/-- The "content" value of the object `get_website` returns for `url`
when it does not raise; this is what
`json.loads(await get_website(url))[0]["content"]` evaluates to on
mcp_server.py line 169 in that case. -/
def website_content (env : Env) (url : String) : String :=
  match env.fetch url with
  | FetchResult.success html =>
    truncate_to_n_words (format_text env.getText env.nfkc (env.getText html))
      PAGE_CONTENT_WORDS_LIMIT
  | FetchResult.failure e => "Failed to retrieve the page. Error: " ++ e

/-- Model of one iteration of the `web_search` loop body (mcp_server.py
lines 168-171) on the result dict `r`: read `r["href"]` (KeyError when
absent), call `get_website` (propagating any exception it raises) and take
`[0]["content"]` of its result, set `r["text"]` and delete `r["content"]`
(KeyError when absent).  Returns the updated dict and the requests
issued. -/
def process_result (env : Env) (r : Dict) : Except PyErr Dict × List Request :=
  match r.lookup "href" with
  | none => (Except.error (PyErr.keyError "href"), [])
  | some href =>
    match get_website_entry env href with
    | Except.error e => (Except.error e, [Request.fetchReq href])
    | Except.ok entry =>
      match entry.lookup "content" with
      | none => (Except.error (PyErr.keyError "content"), [Request.fetchReq href])
      | some content =>
        match dictDel (dictSet r "text" content) "content" with
        | none => (Except.error (PyErr.keyError "content"), [Request.fetchReq href])
        | some r2 => (Except.ok r2, [Request.fetchReq href])

/-- Model of the `for i in range(0, n)` loop of `web_search` (mcp_server.py
lines 168-171): process the first `n` dicts in order, stopping at the
first raised exception; dicts beyond the first `n` are left untouched
(they are sliced away afterwards). -/
def process_results (env : Env) : Nat → List Dict → Except PyErr (List Dict) × List Request
  | 0, rs => (Except.ok rs, [])
  | _ + 1, [] => (Except.ok [], [])
  | n + 1, r :: rs =>
    match process_result env r with
    | (Except.error e, reqs) => (Except.error e, reqs)
    | (Except.ok r2, reqs1) =>
      match process_results env n rs with
      | (Except.error e, reqs2) => (Except.error e, reqs1 ++ reqs2)
      | (Except.ok rs2, reqs2) => (Except.ok (r2 :: rs2), reqs1 ++ reqs2)

/-- Model of the `web_search` tool (mcp_server.py lines 157-174): validate
the query, call the search backend on the stripped query, process the
first `n = min(len(results), MAX_LINKS_IN_RESPONSE)` results, slice
`results` to the first `n` entries, and return the payload (the Python
function returns `json.dumps` of it) together with the trace of HTTP
requests issued. -/
def web_search (env : Env) (query : String) : Except PyErr Payload × List Request :=
  if query = "" ∨ pyStripS query = "" then
    (Except.error (PyErr.valueError "The search query must not be empty."), [])
  else
    match env.search (pyStripS query) with
    | Except.error e =>
      (Except.error (PyErr.httpError e), [Request.searchReq (pyStripS query)])
    | Except.ok payload =>
      match process_results env
          (min payload.results.length MAX_LINKS_IN_RESPONSE) payload.results with
      | (Except.error e, reqs) =>
        (Except.error e, Request.searchReq (pyStripS query) :: reqs)
      | (Except.ok rs2, reqs) =>
        (Except.ok { payload with
            results := rs2.take (min payload.results.length MAX_LINKS_IN_RESPONSE) },
         Request.searchReq (pyStripS query) :: reqs)

/-- The net effect of one successful loop iteration on a result dict:
"text" is set to the fetched content and "content" is deleted. -/
def enrich (env : Env) (r : Dict) : Dict :=
  dictErase (dictSet r "text" (website_content env ((r.lookup "href").getD ""))) "content"

/-- Holds when fetching `url` cannot hit the uncaught title
`AttributeError` of `get_website`: either the fetch fails (the failure
branch never looks at the title) or the fetched page's title tag, when
present, has a proper string. -/
def titleOk (env : Env) (url : String) : Bool :=
  match env.fetch url with
  | FetchResult.failure _ => true
  | FetchResult.success html => env.titleOf html != some none

/-- Holds when the `web_search` loop can process the result dict `r`
without raising: `r` carries the "href" and "content" keys the loop
reads, and fetching its href cannot hit the title `AttributeError`. -/
def resultOk (env : Env) (r : Dict) : Bool :=
  (r.lookup "href").isSome && (r.lookup "content").isSome &&
    titleOk env ((r.lookup "href").getD "")

/-- Concrete search payload used by the witnesses. -/
def payloadTest : Payload :=
  { results :=
      [[("title", "A"), ("href", "http://a.example"), ("content", "snippet a")],
       [("title", "B"), ("href", "http://b.example"), ("content", "snippet b")]],
    extra := [("query", "news")] }

/-- Concrete environment used by the witnesses: the backend returns
`payloadTest` and every page fetch fails with a timeout message. -/
def envTest : Env :=
  { fetch := fun _ => FetchResult.failure "timed out"
  , search := fun _ => Except.ok payloadTest
  , titleOf := fun _ => none
  , getText := fun s => s
  , nfkc := fun s => s }

/-- Concrete environment whose search backend fails with an HTTP error. -/
def envErr : Env :=
  { fetch := fun _ => FetchResult.failure "timed out"
  , search := fun _ => Except.error "500 Internal Server Error"
  , titleOf := fun _ => none
  , getText := fun s => s
  , nfkc := fun s => s }

/-- Concrete payload whose only result lacks the "content" key. -/
def payloadNoContent : Payload :=
  { results := [[("href", "http://a.example")]], extra := [] }

/-- Concrete environment returning `payloadNoContent`. -/
def envNoContent : Env :=
  { fetch := fun _ => FetchResult.failure "timed out"
  , search := fun _ => Except.ok payloadNoContent
  , titleOf := fun _ => none
  , getText := fun s => s
  , nfkc := fun s => s }

/-- Concrete environment whose page fetch succeeds on a page whose title
tag exists but has a `None` string (empty `<title>`). -/
def envBadTitle : Env :=
  { fetch := fun _ => FetchResult.success "<title></title>"
  , search := fun _ => Except.ok payloadTest
  , titleOf := fun _ => some none
  , getText := fun s => s
  , nfkc := fun s => s }

@[simp]
theorem toList_asString (l : List Char) : l.asString.toList = l := rfl

theorem splitAux_append_nonspace (w : List Char) :
    ∀ (s acc : List Char), (∀ c ∈ w, pyIsSpace c = false) →
      splitAux (w ++ s) acc = splitAux s (w.reverse ++ acc) := by
  induction w with
  | nil => intro s acc _; simp
  | cons c w' ih =>
    intro s acc hw
    have hc : pyIsSpace c = false := hw c (List.mem_cons_self c w')
    have : splitAux (c :: (w' ++ s)) acc = splitAux (w' ++ s) (c :: acc) := by
      simp [splitAux, hc]
    rw [List.cons_append, this, ih s (c :: acc) (fun d hd => hw d (List.mem_cons_of_mem c hd))]
    simp

theorem splitAux_good (s : List Char) :
    ∀ (acc : List Char), (∀ c ∈ acc, pyIsSpace c = false) →
      ∀ w ∈ splitAux s acc, w ≠ [] ∧ ∀ c ∈ w, pyIsSpace c = false := by
  induction s with
  | nil =>
    intro acc hacc w hw
    by_cases h : acc = []
    · simp [splitAux, h] at hw
    · simp [splitAux, h] at hw
      subst hw
      refine ⟨by simpa using h, ?_⟩
      intro c hc
      exact hacc c (List.mem_reverse.mp hc)
  | cons c cs ih =>
    intro acc hacc w hw
    by_cases hc : pyIsSpace c = true
    · by_cases h : acc = []
      · simp [splitAux, hc, h] at hw
        exact ih [] (by simp) w hw
      · simp [splitAux, hc, h] at hw
        rcases hw with hw | hw
        · subst hw
          refine ⟨by simpa using h, ?_⟩
          intro d hd
          exact hacc d (List.mem_reverse.mp hd)
        · exact ih [] (by simp) w hw
    · have hc' : pyIsSpace c = false := by simpa using hc
      simp [splitAux, hc'] at hw
      refine ih (c :: acc) ?_ w hw
      intro d hd
      rcases List.mem_cons.mp hd with h | h
      · subst h; exact hc'
      · exact hacc d h

theorem pySplit_good (s : List Char) :
    ∀ w ∈ pySplit s, w ≠ [] ∧ ∀ c ∈ w, pyIsSpace c = false :=
  splitAux_good s [] (by simp)

theorem pySplit_joinWords (ws : List (List Char))
    (h : ∀ w ∈ ws, w ≠ [] ∧ ∀ c ∈ w, pyIsSpace c = false) :
    pySplit (joinWords ws) = ws := by
  induction ws with
  | nil => simp [pySplit, joinWords, splitAux]
  | cons w ws' ih =>
    cases ws' with
    | nil =>
      obtain ⟨hne, hsp⟩ := h w (List.mem_cons_self w [])
      have : pySplit (joinWords [w]) = splitAux (w ++ []) [] := by
        simp [pySplit, joinWords]
      rw [this, splitAux_append_nonspace w [] [] hsp]
      simp [splitAux, hne]
    | cons w' ws'' =>
      obtain ⟨hne, hsp⟩ := h w (List.mem_cons_self w _)
      have hjoin : joinWords (w :: w' :: ws'') = w ++ ' ' :: joinWords (w' :: ws'') := rfl
      have hspace : pyIsSpace ' ' = true := by decide
      have hrevne : w.reverse ≠ [] := by simpa using hne
      calc pySplit (joinWords (w :: w' :: ws''))
      _ = splitAux (w ++ ' ' :: joinWords (w' :: ws'')) [] := by rw [hjoin]; rfl
      _ = splitAux (' ' :: joinWords (w' :: ws'')) w.reverse := by
          rw [splitAux_append_nonspace w _ [] hsp]; simp
      _ = w.reverse.reverse :: splitAux (joinWords (w' :: ws'')) [] := by
          simp [splitAux, hspace, hrevne]
      _ = w :: pySplit (joinWords (w' :: ws'')) := by simp [pySplit]
      _ = w :: (w' :: ws'') := by
          rw [ih (fun v hv => h v (List.mem_cons_of_mem w hv))]

theorem pySplit_truncate (text : List Char) (n : Nat) :
    pySplit (joinWords ((pySplit text).take n)) = (pySplit text).take n :=
  pySplit_joinWords _ (fun w hw => pySplit_good text w (List.take_subset n _ hw))

/-- C5: for every text and limit `n`, `truncate_to_n_words` is idempotent,
and its output never has more than `n` whitespace-delimited tokens. -/
theorem truncate_to_n_words_idem_and_bounded (text : String) (n : Nat) :
    truncate_to_n_words (truncate_to_n_words text n) n = truncate_to_n_words text n ∧
    (pySplit (truncate_to_n_words text n).toList).length ≤ n := by
  constructor
  · show (joinWords ((pySplit (joinWords ((pySplit text.toList).take n)).asString.toList).take n)).asString
      = (joinWords ((pySplit text.toList).take n)).asString
    rw [toList_asString, pySplit_truncate, List.take_take, min_self]
  · show (pySplit (joinWords ((pySplit text.toList).take n)).asString.toList).length ≤ n
    rw [toList_asString, pySplit_truncate]
    exact le_trans (Nat.le_of_eq (List.length_take n _)) (min_le_left n _)

@[simp]
theorem asString_toList (s : String) : s.toList.asString = s := rfl

theorem remove_emojis_eq_self (t : String) (h : ∀ c ∈ t.toList, isSo c = false) :
    remove_emojis t = t := by
  rw [remove_emojis, List.filter_eq_self.mpr (fun a ha => by simp [h a ha]), asString_toList]

theorem lookup_cons_ne (a b k' : String) (t : Dict) (h : k' ≠ a) :
    ((a, b) :: t).lookup k' = t.lookup k' := by
  rw [List.lookup_cons, beq_eq_false_iff_ne.mpr h]

theorem lookup_cons_self (a b : String) (t : Dict) :
    ((a, b) :: t).lookup a = some b := by
  rw [List.lookup_cons, beq_self_eq_true]

theorem lookup_setMap_ne (d : Dict) (k v k' : String) (h : k' ≠ k) :
    (d.map (fun kv => if kv.1 = k then (k, v) else kv)).lookup k' = d.lookup k' := by
  induction d with
  | nil => rfl
  | cons kv d' ih =>
    obtain ⟨a, b⟩ := kv
    by_cases hak : a = k
    · subst hak
      have hstep : ((a, b) :: d').map (fun kv => if kv.1 = a then (a, v) else kv)
          = (a, v) :: d'.map (fun kv => if kv.1 = a then (a, v) else kv) := by simp
      rw [hstep, lookup_cons_ne a v k' _ h, lookup_cons_ne a b k' _ h]
      exact ih
    · have hstep : ((a, b) :: d').map (fun kv => if kv.1 = k then (k, v) else kv)
          = (a, b) :: d'.map (fun kv => if kv.1 = k then (k, v) else kv) := by simp [hak]
      rw [hstep]
      by_cases hka : k' = a
      · subst hka
        rw [lookup_cons_self, lookup_cons_self]
      · rw [lookup_cons_ne a b k' _ hka, lookup_cons_ne a b k' _ hka]
        exact ih

theorem lookup_setMap_self (d : Dict) (k v : String) (hs : (d.lookup k).isSome = true) :
    (d.map (fun kv => if kv.1 = k then (k, v) else kv)).lookup k = some v := by
  induction d with
  | nil => simp [List.lookup] at hs
  | cons kv d' ih =>
    obtain ⟨a, b⟩ := kv
    by_cases hak : a = k
    · subst hak
      have hstep : ((a, b) :: d').map (fun kv => if kv.1 = a then (a, v) else kv)
          = (a, v) :: d'.map (fun kv => if kv.1 = a then (a, v) else kv) := by simp
      rw [hstep, lookup_cons_self]
    · have hka : k ≠ a := fun he => hak he.symm
      have hstep : ((a, b) :: d').map (fun kv => if kv.1 = k then (k, v) else kv)
          = (a, b) :: d'.map (fun kv => if kv.1 = k then (k, v) else kv) := by simp [hak]
      rw [lookup_cons_ne a b k _ hka] at hs
      rw [hstep, lookup_cons_ne a b k _ hka]
      exact ih hs

theorem lookup_append_pair_ne (d : Dict) (k v k' : String) (h : k' ≠ k) :
    (d ++ [(k, v)]).lookup k' = d.lookup k' := by
  induction d with
  | nil =>
    show ((k, v) :: []).lookup k' = List.lookup k' []
    rw [lookup_cons_ne k v k' _ h]
  | cons kv d' ih =>
    obtain ⟨a, b⟩ := kv
    rw [List.cons_append]
    by_cases hka : k' = a
    · subst hka
      rw [lookup_cons_self, lookup_cons_self]
    · rw [lookup_cons_ne a b k' _ hka, lookup_cons_ne a b k' _ hka]
      exact ih

theorem lookup_append_pair_self (d : Dict) (k v : String) (h : d.lookup k = none) :
    (d ++ [(k, v)]).lookup k = some v := by
  induction d with
  | nil =>
    show ((k, v) :: []).lookup k = some v
    rw [lookup_cons_self]
  | cons kv d' ih =>
    obtain ⟨a, b⟩ := kv
    by_cases hka : k = a
    · subst hka
      rw [lookup_cons_self] at h
      cases h
    · rw [lookup_cons_ne a b k _ hka] at h
      rw [List.cons_append, lookup_cons_ne a b k _ hka]
      exact ih h

theorem dictSet_lookup_ne (d : Dict) (k v k' : String) (h : k' ≠ k) :
    (dictSet d k v).lookup k' = d.lookup k' := by
  rw [dictSet]
  by_cases hs : (d.lookup k).isSome = true
  · rw [if_pos hs]
    exact lookup_setMap_ne d k v k' h
  · rw [if_neg (by simpa using hs)]
    exact lookup_append_pair_ne d k v k' h

theorem dictSet_lookup_self (d : Dict) (k v : String) :
    (dictSet d k v).lookup k = some v := by
  rw [dictSet]
  by_cases hs : (d.lookup k).isSome = true
  · rw [if_pos hs]
    exact lookup_setMap_self d k v hs
  · rw [if_neg (by simpa using hs)]
    refine lookup_append_pair_self d k v ?_
    cases hl : d.lookup k
    · rfl
    · rw [hl] at hs
      simp at hs

theorem dictErase_lookup_ne (d : Dict) (k k' : String) (h : k' ≠ k) :
    (dictErase d k).lookup k' = d.lookup k' := by
  induction d with
  | nil => rfl
  | cons kv d' ih =>
    obtain ⟨a, b⟩ := kv
    by_cases hak : a = k
    · subst hak
      have hpred : ((a, b).1 != a) = false := by simp
      rw [dictErase, List.filter_cons, hpred]
      rw [if_neg (by simp)]
      rw [lookup_cons_ne a b k' _ (fun he => h he)]
      exact ih
    · have hpred : ((a, b).1 != k) = true := by simpa using hak
      rw [dictErase, List.filter_cons, hpred, if_pos rfl]
      by_cases hka : k' = a
      · subst hka
        rw [lookup_cons_self, lookup_cons_self]
      · rw [lookup_cons_ne a b k' _ hka, lookup_cons_ne a b k' _ hka]
        exact ih

theorem get_website_entry_ok (env : Env) (url : String) (h : titleOk env url = true) :
    ∃ d, get_website_entry env url = Except.ok d ∧
      d.lookup "content" = some (website_content env url) := by
  cases hf : env.fetch url with
  | success html =>
    have hne : env.titleOf html ≠ some none := by
      simp only [titleOk, hf] at h
      simpa using h
    cases ht : env.titleOf html with
    | none =>
      have hd : get_website_entry env url = Except.ok
          [("title", remove_emojis (env.nfkc (pyStripS "No title found"))),
           ("url", url),
           ("content", truncate_to_n_words (format_text env.getText env.nfkc (env.getText html))
              PAGE_CONTENT_WORDS_LIMIT),
           ("excerpt", generate_excerpt (format_text env.getText env.nfkc (env.getText html)))] := by
        simp only [get_website_entry, hf, ht]
      refine ⟨_, hd, ?_⟩
      simp only [website_content, hf]
      rw [lookup_cons_ne _ _ _ _ (by decide), lookup_cons_ne _ _ _ _ (by decide),
        lookup_cons_self]
    | some os =>
      cases os with
      | none => exact absurd ht hne
      | some t =>
        have hd : get_website_entry env url = Except.ok
            [("title", remove_emojis (env.nfkc (pyStripS t))),
             ("url", url),
             ("content", truncate_to_n_words (format_text env.getText env.nfkc (env.getText html))
                PAGE_CONTENT_WORDS_LIMIT),
             ("excerpt", generate_excerpt (format_text env.getText env.nfkc (env.getText html)))] := by
          simp only [get_website_entry, hf, ht]
        refine ⟨_, hd, ?_⟩
        simp only [website_content, hf]
        rw [lookup_cons_ne _ _ _ _ (by decide), lookup_cons_ne _ _ _ _ (by decide),
          lookup_cons_self]
  | failure e =>
    have hd : get_website_entry env url = Except.ok
        [("url", url), ("content", "Failed to retrieve the page. Error: " ++ e)] := by
      simp only [get_website_entry, hf]
    refine ⟨_, hd, ?_⟩
    simp only [website_content, hf]
    rw [lookup_cons_ne _ _ _ _ (by decide), lookup_cons_self]

theorem get_website_entry_bad_title (env : Env) (url html : String)
    (hf : env.fetch url = FetchResult.success html)
    (ht : env.titleOf html = some none) :
    get_website_entry env url =
      Except.error (PyErr.attributeError "NoneType object has no attribute strip") := by
  simp only [get_website_entry, hf, ht]

theorem website_content_failure (env : Env) (u emsg : String)
    (h : env.fetch u = FetchResult.failure emsg) :
    website_content env u = "Failed to retrieve the page. Error: " ++ emsg := by
  rw [website_content, h]

theorem resultOk_spec (env : Env) (r : Dict) (h : resultOk env r = true) :
    ∃ u, r.lookup "href" = some u ∧ (r.lookup "content").isSome = true ∧
      titleOk env u = true := by
  simp only [resultOk, Bool.and_eq_true] at h
  obtain ⟨⟨hh, hc⟩, ht⟩ := h
  obtain ⟨u, hu⟩ := Option.isSome_iff_exists.mp hh
  rw [hu, Option.getD_some] at ht
  exact ⟨u, hu, hc, ht⟩

theorem process_result_ok (env : Env) (r : Dict) (u : String)
    (hhref : r.lookup "href" = some u) (hcont : (r.lookup "content").isSome = true)
    (htitle : titleOk env u = true) :
    process_result env r = (Except.ok (enrich env r), [Request.fetchReq u]) := by
  obtain ⟨d, hd, hdc⟩ := get_website_entry_ok env u htitle
  have hset : ((dictSet r "text" (website_content env u)).lookup "content").isSome = true := by
    rw [dictSet_lookup_ne _ _ _ _ (by decide)]
    exact hcont
  have hdel : dictDel (dictSet r "text" (website_content env u)) "content"
      = some (dictErase (dictSet r "text" (website_content env u)) "content") := by
    rw [dictDel, if_pos hset]
  simp only [process_result, hhref, hd, hdc, hdel]
  simp only [enrich, hhref, Option.getD_some]

theorem process_result_err_href (env : Env) (r : Dict) (h : r.lookup "href" = none) :
    process_result env r = (Except.error (PyErr.keyError "href"), []) := by
  rw [process_result, h]

theorem process_result_err_content (env : Env) (r : Dict) (u : String)
    (hhref : r.lookup "href" = some u) (hcont : r.lookup "content" = none)
    (htitle : titleOk env u = true) :
    process_result env r = (Except.error (PyErr.keyError "content"), [Request.fetchReq u]) := by
  obtain ⟨d, hd, hdc⟩ := get_website_entry_ok env u htitle
  have hset : (dictSet r "text" (website_content env u)).lookup "content" = none := by
    rw [dictSet_lookup_ne _ _ _ _ (by decide)]
    exact hcont
  have hdel : dictDel (dictSet r "text" (website_content env u)) "content" = none := by
    rw [dictDel, hset, if_neg (by simp)]
  simp only [process_result, hhref, hd, hdc, hdel]

theorem enrich_lookup_ne (env : Env) (r : Dict) (k : String)
    (hk1 : k ≠ "content") (hk2 : k ≠ "text") :
    (enrich env r).lookup k = r.lookup k := by
  rw [enrich, dictErase_lookup_ne _ _ _ hk1, dictSet_lookup_ne _ _ _ _ hk2]

theorem enrich_lookup_text (env : Env) (r : Dict) (u : String)
    (hhref : r.lookup "href" = some u) :
    (enrich env r).lookup "text" = some (website_content env u) := by
  rw [enrich, hhref, dictErase_lookup_ne _ _ _ (by decide), dictSet_lookup_self,
    Option.getD_some]

theorem process_results_ok (env : Env) :
    ∀ (n : Nat) (rs : List Dict), n ≤ rs.length →
      (∀ r ∈ rs.take n, resultOk env r = true) →
      ∃ tr, process_results env n rs =
        (Except.ok ((rs.take n).map (enrich env) ++ rs.drop n), tr) := by
  intro n
  induction n with
  | zero =>
    intro rs _ _
    exact ⟨[], by simp [process_results]⟩
  | succ m ih =>
    intro rs hlen hkeys
    cases rs with
    | nil => simp at hlen
    | cons r rs' =>
      have hmem : r ∈ (r :: rs').take (m + 1) := by
        rw [List.take_succ_cons]
        exact List.mem_cons_self r _
      obtain ⟨u, hu, hc, ht⟩ := resultOk_spec env r (hkeys r hmem)
      have hpr := process_result_ok env r u hu hc ht
      obtain ⟨tr, htr⟩ := ih rs' (Nat.le_of_succ_le_succ hlen)
        (fun x hx => hkeys x (by rw [List.take_succ_cons]; exact List.mem_cons_of_mem r hx))
      refine ⟨[Request.fetchReq u] ++ tr, ?_⟩
      simp only [process_results, hpr, htr, List.take_succ_cons, List.drop_succ_cons,
        List.map_cons, List.cons_append]

theorem process_results_err (env : Env) :
    ∀ (i n : Nat) (rs : List Dict) (ri : Dict) (e : PyErr) (tri : List Request),
      i < n → rs[i]? = some ri →
      (∀ j : Nat, j < i → ∀ rj, rs[j]? = some rj → resultOk env rj = true) →
      process_result env ri = (Except.error e, tri) →
      ∃ tr, process_results env n rs = (Except.error e, tr) := by
  intro i
  induction i with
  | zero =>
    intro n rs ri e tri hin hri _ herr
    cases n with
    | zero => cases hin
    | succ m =>
      cases rs with
      | nil => simp at hri
      | cons r rs' =>
        have hrr : r = ri := by simpa using hri
        subst hrr
        exact ⟨tri, by simp [process_results, herr]⟩
  | succ i' ih =>
    intro n rs ri e tri hin hri hprev herr
    cases n with
    | zero => cases hin
    | succ m =>
      cases rs with
      | nil => simp at hri
      | cons r rs' =>
        obtain ⟨u, hu, hc, ht⟩ := resultOk_spec env r (hprev 0 (Nat.succ_pos i') r (by simp))
        have hpr := process_result_ok env r u hu hc ht
        have hri' : rs'[i']? = some ri := by simpa using hri
        obtain ⟨tr, htr⟩ := ih m rs' ri e tri (Nat.lt_of_succ_lt_succ hin) hri'
          (fun j hj rj hrj => hprev (j + 1) (Nat.succ_lt_succ hj) rj (by simpa using hrj))
          herr
        exact ⟨[Request.fetchReq u] ++ tr, by simp [process_results, hpr, htr]⟩

theorem web_search_guard_neg (query : String) (hq : pyStripS query ≠ "") :
    ¬(query = "" ∨ pyStripS query = "") := by
  rintro (h | h)
  · subst h
    exact hq rfl
  · exact hq h

theorem web_search_ok_shape (env : Env) (query : String) (payload : Payload)
    (hq : pyStripS query ≠ "")
    (hs : env.search (pyStripS query) = Except.ok payload)
    (hkeys : ∀ r ∈ payload.results.take (min payload.results.length MAX_LINKS_IN_RESPONSE),
        resultOk env r = true) :
    ∃ tr, web_search env query =
      (Except.ok (Payload.mk
        ((payload.results.take (min payload.results.length MAX_LINKS_IN_RESPONSE)).map
          (enrich env)) payload.extra), tr) := by
  have hn : min payload.results.length MAX_LINKS_IN_RESPONSE ≤ payload.results.length :=
    min_le_left _ _
  obtain ⟨tr, htr⟩ := process_results_ok env _ payload.results hn hkeys
  have hlenA : ((payload.results.take (min payload.results.length MAX_LINKS_IN_RESPONSE)).map
      (enrich env)).length = min payload.results.length MAX_LINKS_IN_RESPONSE := by
    rw [List.length_map, List.length_take]
    exact min_eq_left hn
  have htake : (((payload.results.take (min payload.results.length MAX_LINKS_IN_RESPONSE)).map
        (enrich env)) ++
      payload.results.drop (min payload.results.length MAX_LINKS_IN_RESPONSE)).take
        (min payload.results.length MAX_LINKS_IN_RESPONSE) =
      (payload.results.take (min payload.results.length MAX_LINKS_IN_RESPONSE)).map
        (enrich env) :=
    List.take_left' hlenA
  refine ⟨Request.searchReq (pyStripS query) :: tr, ?_⟩
  simp only [web_search, if_neg (web_search_guard_neg query hq), hs, htr, htake]

/-- C1: when the backend returns a `results` list of length `k` whose
selected entries can be processed without raising — each carries the
"href" and "content" keys the loop reads, and fetching its href cannot
hit the uncaught title `AttributeError` of `get_website` (the crash path
of corrected claim C7) — `web_search` succeeds and its `results` sequence
has length `min k MAX_LINKS_IN_RESPONSE`; entry `i` of the response is
backend entry `i` enriched in place (every key other than the rewritten
"content"/"text" pair is unchanged), so the kept entries are exactly the
first `min k 3` backend results in their original relative order. -/
theorem web_search_keeps_first_min_k_results (env : Env) (query : String) (payload : Payload)
    (hq : pyStripS query ≠ "")
    (hs : env.search (pyStripS query) = Except.ok payload)
    (hkeys : ∀ r ∈ payload.results.take (min payload.results.length MAX_LINKS_IN_RESPONSE),
        resultOk env r = true) :
    ∃ p', (web_search env query).1 = Except.ok p' ∧
      p'.results.length = min payload.results.length MAX_LINKS_IN_RESPONSE ∧
      ∀ i : Nat, i < min payload.results.length MAX_LINKS_IN_RESPONSE →
        ∀ k : String, k ≠ "content" → k ≠ "text" →
          p'.results[i]?.bind (fun r => r.lookup k) =
            payload.results[i]?.bind (fun r => r.lookup k) := by
  obtain ⟨tr, htr⟩ := web_search_ok_shape env query payload hq hs hkeys
  refine ⟨_, by rw [htr], ?_, ?_⟩
  · show ((payload.results.take (min payload.results.length MAX_LINKS_IN_RESPONSE)).map
      (enrich env)).length = min payload.results.length MAX_LINKS_IN_RESPONSE
    rw [List.length_map, List.length_take]
    exact min_eq_left (min_le_left _ _)
  · intro i hi k hk1 hk2
    have hilen : i < payload.results.length := lt_of_lt_of_le hi (min_le_left _ _)
    have hA : ((payload.results.take (min payload.results.length MAX_LINKS_IN_RESPONSE)).map
        (enrich env))[i]? = some (enrich env payload.results[i]) := by
      rw [List.getElem?_map, List.getElem?_take, if_pos hi, List.getElem?_eq_getElem hilen,
        Option.map_some']
    show ((payload.results.take (min payload.results.length MAX_LINKS_IN_RESPONSE)).map
        (enrich env))[i]?.bind (fun r => r.lookup k) =
      payload.results[i]?.bind (fun r => r.lookup k)
    rw [hA, List.getElem?_eq_getElem hilen, Option.some_bind, Option.some_bind]
    exact enrich_lookup_ne env _ k hk1 hk2

/-- Witness for `web_search_keeps_first_min_k_results` on a concrete
environment with two backend results. -/
theorem web_search_keeps_first_witness :
    ∃ p', (web_search envTest "news").1 = Except.ok p' ∧
      p'.results.length = min payloadTest.results.length MAX_LINKS_IN_RESPONSE ∧
      ∀ i : Nat, i < min payloadTest.results.length MAX_LINKS_IN_RESPONSE →
        ∀ k : String, k ≠ "content" → k ≠ "text" →
          p'.results[i]?.bind (fun r => r.lookup k) =
            payloadTest.results[i]?.bind (fun r => r.lookup k) :=
  web_search_keeps_first_min_k_results envTest "news" payloadTest (by decide) rfl (by decide)

/-- C2: a failing page fetch for one of the selected results does not
abort `web_search`: when every selected result can be processed without
raising (`resultOk`: keys present; note a result whose fetch fails
satisfies the title condition vacuously, while a successfully fetched
sibling page must not hit the uncaught title `AttributeError` of
corrected claim C7), the call still succeeds, the response has
`n = min k 3` result entries, and the failing entry's "text" field holds
the textual error message built by `get_website` (which mentions the
fetch failure) instead of page content. -/
theorem web_search_tolerates_page_fetch_failure (env : Env) (query : String)
    (payload : Payload) (i : Nat) (r : Dict) (u emsg : String)
    (hq : pyStripS query ≠ "")
    (hs : env.search (pyStripS query) = Except.ok payload)
    (hkeys : ∀ r' ∈ payload.results.take (min payload.results.length MAX_LINKS_IN_RESPONSE),
        resultOk env r' = true)
    (hi : i < min payload.results.length MAX_LINKS_IN_RESPONSE)
    (hr : payload.results[i]? = some r)
    (hhref : r.lookup "href" = some u)
    (hfail : env.fetch u = FetchResult.failure emsg) :
    ∃ p', (web_search env query).1 = Except.ok p' ∧
      p'.results.length = min payload.results.length MAX_LINKS_IN_RESPONSE ∧
      p'.results[i]?.bind (fun d => d.lookup "text") =
        some ("Failed to retrieve the page. Error: " ++ emsg) := by
  obtain ⟨tr, htr⟩ := web_search_ok_shape env query payload hq hs hkeys
  have hilen : i < payload.results.length := lt_of_lt_of_le hi (min_le_left _ _)
  have hri : payload.results[i] = r := by
    rw [List.getElem?_eq_getElem hilen] at hr
    exact Option.some.inj hr
  refine ⟨_, by rw [htr], ?_, ?_⟩
  · show ((payload.results.take (min payload.results.length MAX_LINKS_IN_RESPONSE)).map
      (enrich env)).length = min payload.results.length MAX_LINKS_IN_RESPONSE
    rw [List.length_map, List.length_take]
    exact min_eq_left (min_le_left _ _)
  · have hA : ((payload.results.take (min payload.results.length MAX_LINKS_IN_RESPONSE)).map
        (enrich env))[i]? = some (enrich env r) := by
      rw [List.getElem?_map, List.getElem?_take, if_pos hi, List.getElem?_eq_getElem hilen,
        hri, Option.map_some']
    show ((payload.results.take (min payload.results.length MAX_LINKS_IN_RESPONSE)).map
        (enrich env))[i]?.bind (fun d => d.lookup "text") =
      some ("Failed to retrieve the page. Error: " ++ emsg)
    rw [hA, Option.some_bind, enrich_lookup_text env r u hhref,
      website_content_failure env u emsg hfail]

/-- Witness for `web_search_tolerates_page_fetch_failure` on a concrete
environment whose page fetches all time out. -/
theorem web_search_fetch_failure_witness :
    ∃ p', (web_search envTest "news").1 = Except.ok p' ∧
      p'.results.length = min payloadTest.results.length MAX_LINKS_IN_RESPONSE ∧
      p'.results[0]?.bind (fun d => d.lookup "text") =
        some ("Failed to retrieve the page. Error: " ++ "timed out") :=
  web_search_tolerates_page_fetch_failure envTest "news" payloadTest 0
    [("title", "A"), ("href", "http://a.example"), ("content", "snippet a")]
    "http://a.example" "timed out" (by decide) rfl (by decide) (by decide) (by decide)
    (by decide) rfl

/-- C3: for every query that is empty or consists only of whitespace,
`web_search` fails with the `ValueError` raised on mcp_server.py line 164
before any network call: this holds for every environment, and the
recorded request trace is empty, so zero HTTP requests are made. -/
theorem web_search_rejects_blank_query (env : Env) (query : String)
    (h : ∀ c ∈ query.toList, pyIsSpace c = true) :
    web_search env query =
      (Except.error (PyErr.valueError "The search query must not be empty."), []) := by
  have hstrip : pyStripS query = "" := by
    simp only [pyStripS, pyStrip, List.dropWhile_eq_nil_iff.mpr h]
    rfl
  simp only [web_search]
  rw [if_pos (Or.inr hstrip)]

/-- Witness for `web_search_rejects_blank_query` at the whitespace query
"  ". -/
theorem web_search_blank_query_witness :
    web_search envTest "  " =
      (Except.error (PyErr.valueError "The search query must not be empty."), []) :=
  web_search_rejects_blank_query envTest "  " (by decide)

/-- C4: when the search backend call fails (non-2xx status or transport
error, modelled as `Except.error` from the `search` oracle), `web_search`
fails outright with the propagated error and produces no payload; the
request trace shows only the search request, so no page was fetched and
nothing was caught inside the orchestrator. -/
theorem web_search_backend_failure_propagates (env : Env) (query : String) (emsg : String)
    (hq : pyStripS query ≠ "")
    (hs : env.search (pyStripS query) = Except.error emsg) :
    web_search env query =
      (Except.error (PyErr.httpError emsg), [Request.searchReq (pyStripS query)]) := by
  simp only [web_search, if_neg (web_search_guard_neg query hq), hs]

/-- Witness for `web_search_backend_failure_propagates` on a concrete
environment whose backend answers 500. -/
theorem web_search_backend_failure_witness :
    web_search envErr "news" =
      (Except.error (PyErr.httpError "500 Internal Server Error"),
       [Request.searchReq (pyStripS "news")]) :=
  web_search_backend_failure_propagates envErr "news" "500 Internal Server Error"
    (by decide) rfl

/-- C7 counterexample: on a URL whose page fetch succeeds but whose title
tag exists with a `None` string (empty or multi-child `<title>`),
`page_title.strip()` on mcp_server.py line 124 raises an uncaught
`AttributeError` (only `requests.exceptions.RequestException` is caught),
so `get_website` raises instead of returning a one-object JSON array. -/
theorem get_website_bad_title_counterexample :
    (get_website envBadTitle "http://ex.example").1 =
      Except.error (PyErr.attributeError "NoneType object has no attribute strip") := rfl

/-- C7 (amended): whenever the title extraction cannot raise — the fetch
fails, or it succeeds and the page's title tag is absent or has a proper
string (`titleOk`) — `get_website` returns a one-element array: on a
successful fetch its single object has exactly the keys title, url,
content and excerpt (in that order); on a fetch failure it has exactly
the keys url and content, with "content" holding the failure message.
When the title tag exists but its string is `None`, `get_website`
instead raises an uncaught `AttributeError` (see the counterexample
`get_website_bad_title_counterexample`). -/
theorem get_website_single_object (env : Env) (url : String) (h : titleOk env url = true) :
    ∃ entry, (get_website env url).1 = Except.ok [entry] ∧
      (∀ html, env.fetch url = FetchResult.success html →
        entry.map Prod.fst = ["title", "url", "content", "excerpt"]) ∧
      (∀ e, env.fetch url = FetchResult.failure e →
        entry.map Prod.fst = ["url", "content"] ∧
        entry.lookup "url" = some url ∧
        entry.lookup "content" = some ("Failed to retrieve the page. Error: " ++ e)) := by
  obtain ⟨d, hd, _⟩ := get_website_entry_ok env url h
  refine ⟨d, ?_, ?_, ?_⟩
  · simp only [get_website, hd]
  · intro html hf
    have hne : env.titleOf html ≠ some none := by
      simp only [titleOk, hf] at h
      simpa using h
    cases ht : env.titleOf html with
    | none =>
      simp only [get_website_entry, hf, ht] at hd
      have hde := Except.ok.inj hd
      rw [← hde]
      rfl
    | some os =>
      cases os with
      | none => exact absurd ht hne
      | some t =>
        simp only [get_website_entry, hf, ht] at hd
        have hde := Except.ok.inj hd
        rw [← hde]
        rfl
  · intro e hf
    simp only [get_website_entry, hf] at hd
    have hde := Except.ok.inj hd
    refine ⟨?_, ?_, ?_⟩
    · rw [← hde]
      rfl
    · rw [← hde, lookup_cons_self]
    · rw [← hde, lookup_cons_ne _ _ _ _ (by decide), lookup_cons_self]

/-- Witness for `get_website_single_object` on a concrete environment
whose fetch times out (so the title condition holds vacuously). -/
theorem get_website_single_object_witness :
    ∃ entry, (get_website envTest "http://ex.example").1 = Except.ok [entry] ∧
      (entry.map Prod.fst = ["url", "content"] ∧
        entry.lookup "url" = some "http://ex.example" ∧
        entry.lookup "content" =
          some ("Failed to retrieve the page. Error: " ++ "timed out")) := by
  obtain ⟨entry, h1, _, h3⟩ := get_website_single_object envTest "http://ex.example" (by decide)
  exact ⟨entry, h1, h3 "timed out" rfl⟩

/-- C10: `web_search` succeeds only when each selected backend result has
both the "href" and the "content" key: once the loop reaches the result
(earlier selected results processed without raising), a result lacking
"href" makes the indexing step raise `KeyError("href")` before any fetch,
and one that has "href" but lacks "content" makes the deletion step raise
`KeyError("content")` — for the latter the fetch comes first, so the
result's page must not hit the uncaught title `AttributeError` of
corrected claim C7 (which would otherwise preempt the deletion); either
way the call fails with an uncaught error instead of returning a
payload. -/
theorem web_search_requires_href_and_content_keys (env : Env) (query : String)
    (payload : Payload) (i : Nat) (r : Dict)
    (hq : pyStripS query ≠ "")
    (hs : env.search (pyStripS query) = Except.ok payload)
    (hi : i < min payload.results.length MAX_LINKS_IN_RESPONSE)
    (hr : payload.results[i]? = some r)
    (hprev : ∀ j : Nat, j < i → ∀ rj, payload.results[j]? = some rj →
        resultOk env rj = true) :
    (r.lookup "href" = none →
      (web_search env query).1 = Except.error (PyErr.keyError "href")) ∧
    (∀ u, r.lookup "href" = some u → r.lookup "content" = none → titleOk env u = true →
      (web_search env query).1 = Except.error (PyErr.keyError "content")) := by
  constructor
  · intro hmiss
    obtain ⟨tr, htr⟩ := process_results_err env i _ payload.results r _ [] hi hr hprev
      (process_result_err_href env r hmiss)
    simp only [web_search, if_neg (web_search_guard_neg query hq), hs, htr]
  · intro u hhref hmiss htitle
    obtain ⟨tr, htr⟩ := process_results_err env i _ payload.results r _
      [Request.fetchReq u] hi hr hprev (process_result_err_content env r u hhref hmiss htitle)
    simp only [web_search, if_neg (web_search_guard_neg query hq), hs, htr]

/-- Witness for `web_search_requires_href_and_content_keys` on a concrete
environment whose single backend result lacks the "content" key. -/
theorem web_search_missing_content_witness :
    (web_search envNoContent "news").1 = Except.error (PyErr.keyError "content") :=
  (web_search_requires_href_and_content_keys envNoContent "news" payloadNoContent 0
    [("href", "http://a.example")] (by decide) rfl (by decide) (by decide)
    (fun j hj => absurd hj (Nat.not_lt_zero j))).2 "http://a.example" (by decide) (by decide)
    (by decide)

/-- C8: excerpt truncation is marked while full-content truncation is
silent: `generate_excerpt` returns the first 200 characters followed by
"..." whenever the content is longer than 200 characters, and returns the
content unchanged otherwise, whereas `truncate_to_n_words` never appends
any ellipsis marker — its output is always the space-join of a prefix of
the input's whitespace-delimited tokens. -/
theorem generate_excerpt_marked_truncate_silent :
    (∀ content : String, 200 < content.length →
      generate_excerpt content = content.take 200 ++ "...") ∧
    (∀ content : String, content.length ≤ 200 → generate_excerpt content = content) ∧
    (∀ (text : String) (n : Nat), ∃ ws rest,
      ws ++ rest = pySplit text.toList ∧
      truncate_to_n_words text n = (joinWords ws).asString) := by
  refine ⟨?_, ?_, ?_⟩
  · intro content h
    simp only [generate_excerpt]
    rw [if_pos h]
  · intro content h
    simp only [generate_excerpt]
    rw [if_neg (not_lt.mpr h)]
  · intro text n
    exact ⟨(pySplit text.toList).take n, (pySplit text.toList).drop n,
      List.take_append_drop n _, rfl⟩

set_option maxRecDepth 4000 in
/-- Witness for `generate_excerpt_marked_truncate_silent` at concrete
inputs on both sides of the 200-character threshold. -/
theorem generate_excerpt_marked_witness :
    (generate_excerpt (String.mk (List.replicate 201 'a')) =
      (String.mk (List.replicate 201 'a')).take 200 ++ "...") ∧
    generate_excerpt "hi" = "hi" ∧
    (∃ ws rest, ws ++ rest = pySplit ("a b c".toList) ∧
      truncate_to_n_words "a b c" 2 = (joinWords ws).asString) :=
  ⟨generate_excerpt_marked_truncate_silent.1 (String.mk (List.replicate 201 'a')) (by decide),
   generate_excerpt_marked_truncate_silent.2.1 "hi" (by decide),
   generate_excerpt_marked_truncate_silent.2.2 "a b c" 2⟩

